import Mathlib

/-!
Shallow embedding of `src/server.js` (an Express relay server with endpoints
/api/chat, /api/tts, /api/voice-design, /api/stt, /api/health).

The source file contains two variants of the server separated by a document
separator: a streaming chat variant (using `streamText` and SSE) and a
non-streaming chat variant (using `generateText`).  Both chat handlers are
embedded.

JavaScript values relevant to the handlers are modelled by `Js` (with `undef`
standing for an absent / `undefined` field), JS truthiness by `Js.truthy`,
and the `a || b` / `a !== undefined ? a : b` idioms by `Js.jsOr` / `Js.ifDef`.
Upstream calls (fetch / axios / the AI SDK) are modelled by passing their
outcome as an explicit argument; each handler returns the outgoing provider
request it attempted (or `none` when it returned before contacting the
provider) together with the HTTP response it sends to the caller.
-/

/-- A JavaScript value as it appears in a parsed JSON request body.
`undef` models an absent field (destructuring a missing key yields
`undefined`). -/
inductive Js where
  | undef
  | null
  | bool (b : Bool)
  | num (q : ℚ)
  | str (s : String)
deriving DecidableEq, Repr

namespace Js

/-- JavaScript truthiness of a value: `undefined`, `null`, `false`, `0` and
`""` are falsy, everything else modelled here is truthy. -/
def truthy : Js → Bool
  | .undef => false
  | .null => false
  | .bool b => b
  | .num q => q ≠ 0
  | .str s => s ≠ ""

/-- The JavaScript expression `a || b`: returns `a` when `a` is truthy,
otherwise `b`. -/
def jsOr (a b : Js) : Js := if a.truthy then a else b

/-- The JavaScript expression `a !== undefined ? a : b`. -/
def ifDef (a b : Js) : Js := if a ≠ .undef then a else b

end Js

/-- Truthiness of an optional string (a field that is either absent or a
string), as tested by `!field` in the source. -/
def optTruthy : Option String → Bool
  | none => false
  | some s => s ≠ ""

/-- The JavaScript expression `a || b` on strings (used for
`axiosError.response?.statusText || axiosError.message` and similar). -/
def strOr (a b : String) : String := if a = "" then b else a

/-- One Server-Sent-Events message written by the streaming chat handler:
either `data: {"token": t}` or the terminal `data: {"done": true}`. -/
inductive SseEvent where
  | token (t : String)
  | done
deriving DecidableEq, Repr

/-- The body of an HTTP response sent by one of the handlers. -/
inductive RespBody where
  /-- `res.json({ error })` -/
  | errorOnly (error : String)
  /-- `res.json({ error, details })` -/
  | errorDetails (error : String) (details : String)
  /-- `res.json(result)` – a provider JSON payload relayed verbatim -/
  | rawJson (s : String)
  /-- `res.json({ response })` – non-streaming chat success -/
  | okResponse (response : String)
  /-- `res.json({ response, error: true })` – chat fallback -/
  | fallback (response : String)
  /-- an SSE stream: the events written in order, then `res.end()` -/
  | sse (events : List SseEvent)
  /-- `res.send(buf)` with a Content-Type header -/
  | audio (contentType : String) (bytes : String)
deriving DecidableEq, Repr

/-- Whether the response body carries the `error: true` flag used by the chat
fallback path. -/
def RespBody.errorFlag : RespBody → Bool
  | .fallback _ => true
  | _ => false

/-- An HTTP response: status code and body. -/
structure HttpResp where
  status : Nat
  body : RespBody
deriving DecidableEq, Repr

/-- The value returned by `fetch` / received by axios when the provider
answered (as opposed to the call throwing). -/
structure FetchResponse where
  status : Nat
  statusText : String
  /-- the response payload, as text -/
  body : String
deriving DecidableEq, Repr

/-- `response.ok`: true exactly when the status is in the 2xx range. -/
def FetchResponse.ok (r : FetchResponse) : Bool :=
  decide (200 ≤ r.status ∧ r.status < 300)

/-! ## Chat endpoint (`/api/chat`, both variants) -/

/-- The JSON body of a chat request: `{ playerName, playerDescription,
mjMessage }`, each possibly absent. -/
structure ChatBody where
  playerName : Option String
  playerDescription : Option String
  mjMessage : Option String
deriving DecidableEq, Repr

/-- The test `!playerName || !playerDescription || !mjMessage` guarding the
400 response in both chat handlers. -/
def chatValidationFails (b : ChatBody) : Bool :=
  !optTruthy b.playerName || !optTruthy b.playerDescription || !optTruthy b.mjMessage

/-- `req.body?.playerName || 'Player'` computed in the catch block. -/
def chatFallbackName (b : ChatBody) : String :=
  match b.playerName with
  | some s => if s = "" then "Player" else s
  | none => "Player"

/-- `` `*${name} nods thoughtfully*` ``: the synthetic fallback line. -/
def chatFallbackLine (b : ChatBody) : String :=
  "*" ++ chatFallbackName b ++ " nods thoughtfully*"

/-- The completion request both chat handlers pass to the AI SDK
(`streamText` / `generateText`). -/
structure ChatOutgoing where
  model : String
  system : String
  prompt : String
  temperature : ℚ
  maxTokens : Nat
deriving DecidableEq, Repr

/-- The arguments `{ model, system: playerDescription, prompt: mjMessage,
temperature: 0.8, maxTokens: 150 }` built by both chat handlers.  Validation
has already guaranteed the two fields are present when this is reached. -/
def chatOutgoing (b : ChatBody) : ChatOutgoing :=
  { model := "gpt-4o"
    system := b.playerDescription.getD ""
    prompt := b.mjMessage.getD ""
    temperature := 4 / 5
    maxTokens := 150 }

/-- `'Missing required fields: playerName, playerDescription, mjMessage'` -/
def chatMissingMsg : String :=
  "Missing required fields: playerName, playerDescription, mjMessage"

/-- `'Server misconfiguration: OPENAI_API_KEY missing'` -/
def chatConfigMsg : String := "Server misconfiguration: OPENAI_API_KEY missing"

/-- The streaming variant of `app.post('/api/chat')`.  `apiKey` is
`process.env.OPENAI_API_KEY`; `upstream` is the outcome of the completion
call: a token list (the order `result.textStream` yields them) or a thrown
error.  Returns the attempted completion request (`none` when the handler
returned before invoking the provider) and the HTTP response. -/
def apiChatStream (b : ChatBody) (apiKey : Option String)
    (upstream : Except Unit (List String)) : Option ChatOutgoing × HttpResp :=
  if chatValidationFails b then
    (none, ⟨400, .errorOnly chatMissingMsg⟩)
  else if !optTruthy apiKey then
    (none, ⟨500, .errorOnly chatConfigMsg⟩)
  else
    match upstream with
    | .ok tokens =>
        (some (chatOutgoing b),
         ⟨200, .sse (tokens.map SseEvent.token ++ [SseEvent.done])⟩)
    | .error _ =>
        (some (chatOutgoing b), ⟨200, .fallback (chatFallbackLine b)⟩)

/-- The non-streaming variant of `app.post('/api/chat')` (second part of the
source file, using `generateText`).  `upstream` is the generated text or a
thrown error. -/
def apiChatGenerate (b : ChatBody) (apiKey : Option String)
    (upstream : Except Unit String) : Option ChatOutgoing × HttpResp :=
  if chatValidationFails b then
    (none, ⟨400, .errorOnly chatMissingMsg⟩)
  else if !optTruthy apiKey then
    (none, ⟨500, .errorOnly chatConfigMsg⟩)
  else
    match upstream with
    | .ok text => (some (chatOutgoing b), ⟨200, .okResponse text⟩)
    | .error _ => (some (chatOutgoing b), ⟨200, .fallback (chatFallbackLine b)⟩)

/-! ## Text-to-speech endpoint (`/api/tts`) -/

/-- The JSON body of a TTS request: `{ voiceId, text, voice_settings }`. -/
structure TtsBody where
  voiceId : Js
  text : Js
  voice_settings : Js
deriving DecidableEq, Repr

/-- The hard-coded default voice settings `{ stability: 0.4,
similarity_boost: 0.9, style: 0, use_speaker_boost: true }`. -/
structure VoiceSettings where
  stability : ℚ
  similarity_boost : ℚ
  style : ℚ
  use_speaker_boost : Bool
deriving DecidableEq, Repr

def ttsDefaultSettings : VoiceSettings :=
  { stability := 2 / 5, similarity_boost := 9 / 10, style := 0,
    use_speaker_boost := true }

/-- The `voice_settings` value placed in the outgoing body:
`voice_settings || { ...defaults }`. -/
inductive TtsSettingsOut where
  | caller (v : Js)
  | defaults (s : VoiceSettings)
deriving DecidableEq, Repr

/-- The fetch request the TTS handler sends to the synthesis provider. -/
structure TtsOutgoing where
  /-- `voiceId` interpolated into the request URL -/
  voiceIdInUrl : Js
  /-- the `xi-api-key` header, straight from `process.env.ELEVENLABS_API_KEY` -/
  xiApiKey : Option String
  text : Js
  model : String
  voice_settings : TtsSettingsOut
deriving DecidableEq, Repr

/-- The outgoing TTS provider request built from the request body; there is
no validation and no credential check before it. -/
def ttsOutgoing (b : TtsBody) (apiKey : Option String) : TtsOutgoing :=
  { voiceIdInUrl := b.voiceId
    xiApiKey := apiKey
    text := b.text
    model := "eleven_flash_v2_5"
    voice_settings :=
      if b.voice_settings.truthy then .caller b.voice_settings
      else .defaults ttsDefaultSettings }

/-- `app.post('/api/tts')`.  `outcome` is the result of the `fetch` call: a
provider response (of any status – `fetch` does not throw on non-2xx) or a
thrown error.  The handler always forwards the request; on a returned
response it sends the bytes as `audio/mpeg` (Express default status 200)
without inspecting `r.ok`; only a thrown exception reaches the catch
block, which answers 500 `{ error: 'TTS failed' }`. -/
def apiTts (b : TtsBody) (apiKey : Option String)
    (outcome : Except Unit FetchResponse) : Option TtsOutgoing × HttpResp :=
  match outcome with
  | .ok r => (some (ttsOutgoing b apiKey), ⟨200, .audio "audio/mpeg" r.body⟩)
  | .error _ => (some (ttsOutgoing b apiKey), ⟨500, .errorOnly "TTS failed"⟩)

/-! ## Voice design endpoint (`/api/voice-design`) -/

/-- The JSON body of a voice-design request (each field possibly absent). -/
structure VoiceDesignBody where
  voice_description : Js
  model_id : Js
  text : Js
  auto_generate_text : Js
  loudness : Js
  seed : Js
  guidance_scale : Js
  stream_previews : Js
  quality : Js
  reference_audio_base64 : Js
  prompt_strength : Js
deriving DecidableEq, Repr

/-- The `requestBody` object sent to the voice-creation provider: five always
present fields plus six conditionally added ones (`none` = key absent from
the object). -/
structure VdRequestBody where
  voice_description : Js
  model_id : Js
  auto_generate_text : Js
  loudness : Js
  guidance_scale : Js
  text : Option Js
  seed : Option Js
  stream_previews : Option Js
  quality : Option Js
  reference_audio_base64 : Option Js
  prompt_strength : Option Js
deriving DecidableEq, Repr

/-- The `requestBody` construction: defaults via `||` for `model_id` and
`auto_generate_text`, via `!== undefined ? :` for `loudness` and
`guidance_scale`; `text` and `reference_audio_base64` added when truthy
(`if (text)`), the other optionals added when not `undefined`. -/
def buildVdRequestBody (b : VoiceDesignBody) : VdRequestBody :=
  { voice_description := b.voice_description
    model_id := b.model_id.jsOr (.str "eleven_multilingual_ttv_v2")
    auto_generate_text := b.auto_generate_text.jsOr (.bool false)
    loudness := b.loudness.ifDef (.num (1 / 2))
    guidance_scale := b.guidance_scale.ifDef (.num 5)
    text := if b.text.truthy then some b.text else none
    seed := if b.seed ≠ .undef then some b.seed else none
    stream_previews := if b.stream_previews ≠ .undef then some b.stream_previews else none
    quality := if b.quality ≠ .undef then some b.quality else none
    reference_audio_base64 :=
      if b.reference_audio_base64.truthy then some b.reference_audio_base64 else none
    prompt_strength := if b.prompt_strength ≠ .undef then some b.prompt_strength else none }

/-- The `.length < 20 || .length > 1000` test.  On a non-string value
`.length` is `undefined` and both comparisons are false, as in JavaScript. -/
def vdLengthCheckFails : Js → Bool
  | .str s => decide (s.length < 20) || decide (s.length > 1000)
  | _ => false

/-- The validation stage of the voice-design handler: the early 400 response
when `voice_description` is falsy or its length is out of range, `none` when
validation passes. -/
def vdValidation (b : VoiceDesignBody) : Option HttpResp :=
  if !b.voice_description.truthy then
    some ⟨400, .errorOnly "voice_description is required"⟩
  else if vdLengthCheckFails b.voice_description then
    some ⟨400, .errorOnly "voice_description must be between 20-1000 characters"⟩
  else none

/-- `'Server misconfiguration: ELEVENLABS_API_KEY missing'` -/
def elevenConfigMsg : String :=
  "Server misconfiguration: ELEVENLABS_API_KEY missing"

/-- `app.post('/api/voice-design')`.  `outcome` is the `fetch` result: a
provider response or a thrown error (carrying `error.message`).  On a
non-OK provider response the handler answers with the provider status and
`{ error: 'Voice design failed: ' + statusText, details: errorData }`;
on an OK response it relays the provider JSON with status 200. -/
def apiVoiceDesign (b : VoiceDesignBody) (apiKey : Option String)
    (outcome : Except String FetchResponse) : Option VdRequestBody × HttpResp :=
  match vdValidation b with
  | some resp => (none, resp)
  | none =>
    if !optTruthy apiKey then (none, ⟨500, .errorOnly elevenConfigMsg⟩)
    else
      let body := buildVdRequestBody b
      match outcome with
      | .error msg =>
          (some body, ⟨500, .errorDetails "Voice design processing failed" msg⟩)
      | .ok r =>
          if !r.ok then
            (some body,
             ⟨r.status, .errorDetails ("Voice design failed: " ++ r.statusText) r.body⟩)
          else
            (some body, ⟨200, .rawJson r.body⟩)

/-! ## Speech-to-text endpoint (`/api/stt`) -/

/-- The uploaded file as multer presents it on `req.file` (memory storage). -/
structure SttFile where
  originalname : Js
  mimetype : Js
  buffer : String
deriving DecidableEq, Repr

/-- An `/api/stt` request: the (possibly absent) uploaded file plus the
multipart body fields the handler reads. -/
structure SttBody where
  file : Option SttFile
  model_id : Js
  language_code : Js
  num_speakers : Js
  diarize : Js
  tag_audio_events : Js
deriving DecidableEq, Repr

/-- One entry appended to the outgoing `FormData`: a plain value or the file
part (buffer with filename and content type). -/
inductive FormValue where
  | val (v : Js)
  | filePart (buffer : String) (filename : Js) (contentType : Js)
deriving DecidableEq, Repr

/-- The `FormData` assembled by the STT handler, in append order:
`model_id` (defaulted to `'scribe_v1'` via `||`), the file part (name and
content type defaulted via `||`), then each optional field –
`language_code` and `num_speakers` appended when truthy, `diarize` and
`tag_audio_events` appended when not `undefined`. -/
def sttFormData (b : SttBody) (f : SttFile) : List (String × FormValue) :=
  [("model_id", .val (b.model_id.jsOr (.str "scribe_v1"))),
   ("file", .filePart f.buffer (f.originalname.jsOr (.str "audio.wav"))
      (f.mimetype.jsOr (.str "audio/wav")))]
  ++ (if b.language_code.truthy then [("language_code", FormValue.val b.language_code)] else [])
  ++ (if b.num_speakers.truthy then [("num_speakers", FormValue.val b.num_speakers)] else [])
  ++ (if b.diarize ≠ .undef then [("diarize", FormValue.val b.diarize)] else [])
  ++ (if b.tag_audio_events ≠ .undef then [("tag_audio_events", FormValue.val b.tag_audio_events)] else [])

/-- The outcome of the axios call to the transcription provider: transcript
JSON, or an axios error that may carry a provider response (`response?`)
and always carries a message. -/
inductive SttOutcome where
  | ok (data : String)
  | axiosErr (response : Option FetchResponse) (message : String)
deriving DecidableEq, Repr

/-- `app.post('/api/stt')`.  Absence of the uploaded file yields an early
400; a missing credential an early 500; otherwise the multipart body is
assembled and sent, the transcript relayed verbatim on success, and on an
axios error the handler answers with `response?.status || 500` and
`{ error: 'Speech-to-text failed: ' + (statusText || message),
details: data || message }`. -/
def apiStt (b : SttBody) (apiKey : Option String) (outcome : SttOutcome) :
    Option (List (String × FormValue)) × HttpResp :=
  match b.file with
  | none => (none, ⟨400, .errorOnly "No audio file provided"⟩)
  | some f =>
    if !optTruthy apiKey then (none, ⟨500, .errorOnly elevenConfigMsg⟩)
    else
      let fd := sttFormData b f
      match outcome with
      | .ok data => (some fd, ⟨200, .rawJson data⟩)
      | .axiosErr resp msg =>
          (some fd,
           ⟨resp.elim 500 (·.status),
            .errorDetails
              ("Speech-to-text failed: " ++ resp.elim msg (fun r => strOr r.statusText msg))
              (resp.elim msg (fun r => strOr r.body msg))⟩)

/-! ## Theorems -/

/-- A concrete chat request used to instantiate the chat theorems. -/
def chatBodyEx : ChatBody :=
  { playerName := some "Bob", playerDescription := some "A grumpy dwarf",
    mjMessage := some "You see a dragon." }

/-- C1: for every chat request that passes field validation (in either
variant), if the upstream completion call throws for any reason, the handler
responds HTTP 200 with body `{ response: "*<playerName> nods thoughtfully*",
error: true }` – the error flag is set and no raw error is surfaced. -/
theorem chat_upstream_failure_fallback (b : ChatBody) (key pn : String)
    (hv : chatValidationFails b = false) (hk : key ≠ "")
    (hp : b.playerName = some pn) :
    apiChatStream b (some key) (.error ()) =
      (some (chatOutgoing b),
       ⟨200, .fallback ("*" ++ pn ++ " nods thoughtfully*")⟩) ∧
    apiChatGenerate b (some key) (.error ()) =
      (some (chatOutgoing b),
       ⟨200, .fallback ("*" ++ pn ++ " nods thoughtfully*")⟩) ∧
    (RespBody.fallback ("*" ++ pn ++ " nods thoughtfully*")).errorFlag = true := by
  have hpn : pn ≠ "" := by
    intro h0
    rw [chatValidationFails, hp, h0] at hv
    simp [optTruthy] at hv
  refine ⟨?_, ?_, rfl⟩ <;>
    simp [apiChatStream, apiChatGenerate, hv, optTruthy, hk,
      chatFallbackLine, chatFallbackName, hp, hpn]

/-- Witness for C1 at a concrete validated request. -/
theorem chat_upstream_failure_fallback_witness :
    apiChatStream chatBodyEx (some "k") (.error ()) =
      (some (chatOutgoing chatBodyEx),
       ⟨200, .fallback ("*" ++ "Bob" ++ " nods thoughtfully*")⟩) ∧
    apiChatGenerate chatBodyEx (some "k") (.error ()) =
      (some (chatOutgoing chatBodyEx),
       ⟨200, .fallback ("*" ++ "Bob" ++ " nods thoughtfully*")⟩) ∧
    (RespBody.fallback ("*" ++ "Bob" ++ " nods thoughtfully*")).errorFlag = true :=
  chat_upstream_failure_fallback chatBodyEx "k" "Bob" (by decide) (by decide) rfl

/-- C2: a chat request missing any of the three fields gets HTTP 400 with the
descriptive message, from both variants, whatever the upstream outcome would
have been (the provider is not contacted: the outgoing-request component is
`none`); and a request with all three fields present and non-empty passes the
validation. -/
theorem chat_validation (b : ChatBody) (key : Option String)
    (u1 : Except Unit (List String)) (u2 : Except Unit String) :
    ((b.playerName = none ∨ b.playerDescription = none ∨ b.mjMessage = none) →
      apiChatStream b key u1 = (none, ⟨400, .errorOnly chatMissingMsg⟩) ∧
      apiChatGenerate b key u2 = (none, ⟨400, .errorOnly chatMissingMsg⟩)) ∧
    ((∃ pn pd mj, b.playerName = some pn ∧ b.playerDescription = some pd ∧
        b.mjMessage = some mj ∧ pn ≠ "" ∧ pd ≠ "" ∧ mj ≠ "") →
      chatValidationFails b = false) := by
  constructor
  · intro hmiss
    have hv : chatValidationFails b = true := by
      rcases hmiss with h | h | h <;> simp [chatValidationFails, h, optTruthy]
    exact ⟨by simp [apiChatStream, hv], by simp [apiChatGenerate, hv]⟩
  · rintro ⟨pn, pd, mj, h1, h2, h3, n1, n2, n3⟩
    simp [chatValidationFails, h1, h2, h3, optTruthy, n1, n2, n3]

/-- Witness for C2: a request with no `mjMessage` is rejected with 400 and no
upstream contact, and the concrete full request passes validation. -/
theorem chat_validation_witness :
    (apiChatStream ⟨some "Bob", some "A grumpy dwarf", none⟩ (some "k") (.ok []) =
        (none, ⟨400, .errorOnly chatMissingMsg⟩) ∧
      apiChatGenerate ⟨some "Bob", some "A grumpy dwarf", none⟩ (some "k") (.ok "t") =
        (none, ⟨400, .errorOnly chatMissingMsg⟩)) ∧
    chatValidationFails chatBodyEx = false :=
  ⟨(chat_validation ⟨some "Bob", some "A grumpy dwarf", none⟩ (some "k")
      (.ok []) (.ok "t")).1 (Or.inr (Or.inr rfl)),
   (chat_validation chatBodyEx (some "k") (.ok []) (.ok "t")).2
     ⟨"Bob", "A grumpy dwarf", "You see a dragon.", rfl, rfl, rfl,
      by decide, by decide, by decide⟩⟩

/-- C3: in streaming mode, a validated request whose upstream yields the
finite token sequence `tokens` produces exactly one SSE token event per
upstream token, in upstream order, followed by exactly one terminal `done`
event, after which the stream ends. -/
theorem chat_stream_sse_order (b : ChatBody) (key : String)
    (tokens : List String) (hv : chatValidationFails b = false)
    (hk : key ≠ "") :
    apiChatStream b (some key) (.ok tokens) =
      (some (chatOutgoing b),
       ⟨200, .sse (tokens.map SseEvent.token ++ [SseEvent.done])⟩) := by
  simp [apiChatStream, hv, optTruthy, hk]

/-- Witness for C3 at the token sequence `["Hel", "lo"]`. -/
theorem chat_stream_sse_order_witness :
    apiChatStream chatBodyEx (some "k") (.ok ["Hel", "lo"]) =
      (some (chatOutgoing chatBodyEx),
       ⟨200, .sse (["Hel", "lo"].map SseEvent.token ++ [SseEvent.done])⟩) :=
  chat_stream_sse_order chatBodyEx "k" ["Hel", "lo"] (by decide) (by decide)

/-- A concrete TTS request body. -/
def ttsBodyEx : TtsBody := { voiceId := .str "v1", text := .str "hello", voice_settings := .undef }

/-- C4 counterexample: a provider response with non-success status 401 is not
turned into an HTTP 500 synthesis-failure error – the handler never checks
`r.ok` and sends the provider's (error) bytes as `audio/mpeg` with HTTP 200. -/
theorem tts_provider_error_counterexample :
    FetchResponse.ok ⟨401, "Unauthorized", "err-bytes"⟩ = false ∧
    (apiTts ttsBodyEx (some "k") (.ok ⟨401, "Unauthorized", "err-bytes"⟩)).2 =
      ⟨200, .audio "audio/mpeg" "err-bytes"⟩ := by
  exact ⟨rfl, rfl⟩

/-- C4 amended: only a thrown exception produces the HTTP 500 generic
`TTS failed` error (and no fallback content); any provider response that was
returned – success or not – is relayed as the raw byte stream with the audio
MIME type and HTTP 200, without any success check. -/
theorem tts_error_handling (b : TtsBody) (key : Option String)
    (outcome : Except Unit FetchResponse) :
    (outcome = .error () → (apiTts b key outcome).2 = ⟨500, .errorOnly "TTS failed"⟩) ∧
    (∀ r, outcome = .ok r →
      (apiTts b key outcome).2 = ⟨200, .audio "audio/mpeg" r.body⟩) := by
  constructor
  · intro h; subst h; rfl
  · intro r h; subst h; rfl

/-- Witness for the amended C4 at concrete outcomes. -/
theorem tts_error_handling_witness :
    (apiTts ttsBodyEx (some "k") (.error ())).2 = ⟨500, .errorOnly "TTS failed"⟩ ∧
    (apiTts ttsBodyEx (some "k") (.ok ⟨200, "OK", "bytes"⟩)).2 =
      ⟨200, .audio "audio/mpeg" "bytes"⟩ :=
  ⟨(tts_error_handling ttsBodyEx (some "k") (.error ())).1 rfl,
   (tts_error_handling ttsBodyEx (some "k") (.ok ⟨200, "OK", "bytes"⟩)).2
     ⟨200, "OK", "bytes"⟩ rfl⟩

/-- C10: the TTS handler performs no input validation and no credential
check: for every body (fields may be absent) and every api key (may be
unset), the provider request is always sent, the status is never 400, and
the only non-200 response is the HTTP 500 `{ error: 'TTS failed' }` produced
when the call threw. -/
theorem tts_no_validation (b : TtsBody) (key : Option String)
    (outcome : Except Unit FetchResponse) :
    (apiTts b key outcome).1 = some (ttsOutgoing b key) ∧
    (apiTts b key outcome).2.status ≠ 400 ∧
    ((apiTts b key outcome).2.status ≠ 200 →
      outcome = .error () ∧
      (apiTts b key outcome).2 = ⟨500, .errorOnly "TTS failed"⟩) := by
  cases outcome with
  | ok r => exact ⟨rfl, by simp [apiTts], by simp [apiTts]⟩
  | error e => exact ⟨rfl, by simp [apiTts], fun _ => ⟨rfl, rfl⟩⟩

/-- Witness for C10: body with every field absent and no credential set. -/
theorem tts_no_validation_witness :
    (apiTts ⟨.undef, .undef, .undef⟩ none (.error ())).1 =
      some (ttsOutgoing ⟨.undef, .undef, .undef⟩ none) ∧
    (apiTts ⟨.undef, .undef, .undef⟩ none (.error ())).2 =
      ⟨500, .errorOnly "TTS failed"⟩ :=
  ⟨(tts_no_validation ⟨.undef, .undef, .undef⟩ none (.error ())).1,
   ((tts_no_validation ⟨.undef, .undef, .undef⟩ none (.error ())).2.2
     (by decide)).2⟩

/-- A voice-design body whose only supplied field is the description. -/
def vdBodyOnlyDesc (d : Js) : VoiceDesignBody :=
  { voice_description := d, model_id := .undef, text := .undef,
    auto_generate_text := .undef, loudness := .undef, seed := .undef,
    guidance_scale := .undef, stream_previews := .undef, quality := .undef,
    reference_audio_base64 := .undef, prompt_strength := .undef }

/-- C5: for a string `voice_description`, the voice-design validation stage
rejects with an HTTP 400 response exactly when the length lies outside
[20, 1000] (length 0 hits the falsy `required` branch, which is also 400). -/
theorem voice_design_length_validation (b : VoiceDesignBody) (s : String)
    (hdesc : b.voice_description = .str s) :
    (vdValidation b ≠ none ↔ (s.length < 20 ∨ 1000 < s.length)) ∧
    (∀ resp, vdValidation b = some resp → resp.status = 400) := by
  constructor
  · by_cases hs : s = ""
    · subst hs
      simp [vdValidation, hdesc, Js.truthy]
    · by_cases h1 : s.length < 20 <;> by_cases h2 : 1000 < s.length <;>
        simp [vdValidation, hdesc, Js.truthy, vdLengthCheckFails, hs, h1, h2]
  · intro resp hresp
    rw [vdValidation] at hresp
    split at hresp
    · cases hresp; rfl
    · split at hresp
      · cases hresp; rfl
      · cases hresp

/-- Witness for C5 at a description of length 19 (rejected, with 400). -/
theorem voice_design_length_validation_witness :
    (vdValidation (vdBodyOnlyDesc (.str "exactly nineteen ch")) ≠ none ↔
      (("exactly nineteen ch" : String).length < 20 ∨
        1000 < ("exactly nineteen ch" : String).length)) ∧
    (∀ resp, vdValidation (vdBodyOnlyDesc (.str "exactly nineteen ch")) = some resp →
      resp.status = 400) :=
  voice_design_length_validation (vdBodyOnlyDesc (.str "exactly nineteen ch"))
    "exactly nineteen ch" rfl

/-- A valid voice-design body that supplies `text` as the empty string. -/
def vdBodyEmptyText : VoiceDesignBody :=
  { vdBodyOnlyDesc (.str "a pleasant narrator voice, calm and low") with
    text := .str "" }

/-- C6 counterexample: in a valid request, the caller-supplied `text` field
with value `""` is _not_ included in the outgoing request body (the code
tests truthiness, `if (text)`, not presence), refuting the claimed
included-iff-supplied equivalence. -/
theorem voice_design_optional_fields_counterexample :
    vdValidation vdBodyEmptyText = none ∧
    vdBodyEmptyText.text ≠ Js.undef ∧
    (buildVdRequestBody vdBodyEmptyText).text = none := by
  refine ⟨rfl, by decide, rfl⟩

/-- C6 amended: the required fields get their defaults when unspecified, and
`seed`, `stream_previews`, `quality`, `prompt_strength` are included exactly
when supplied (explicit `false` is included, being distinct from
`undefined`), but `text` and `reference_audio_base64` are included exactly
when truthy – a supplied falsy value (such as an empty string) is omitted. -/
theorem voice_design_request_body (b : VoiceDesignBody) :
    ((buildVdRequestBody b).seed.isSome ↔ b.seed ≠ .undef) ∧
    ((buildVdRequestBody b).stream_previews.isSome ↔ b.stream_previews ≠ .undef) ∧
    ((buildVdRequestBody b).quality.isSome ↔ b.quality ≠ .undef) ∧
    ((buildVdRequestBody b).prompt_strength.isSome ↔ b.prompt_strength ≠ .undef) ∧
    ((buildVdRequestBody b).text.isSome ↔ b.text.truthy = true) ∧
    ((buildVdRequestBody b).reference_audio_base64.isSome ↔
      b.reference_audio_base64.truthy = true) ∧
    (b.stream_previews = .bool false →
      (buildVdRequestBody b).stream_previews = some (.bool false)) ∧
    (b.model_id = .undef →
      (buildVdRequestBody b).model_id = .str "eleven_multilingual_ttv_v2") ∧
    (b.auto_generate_text = .undef →
      (buildVdRequestBody b).auto_generate_text = .bool false) ∧
    (b.loudness = .undef → (buildVdRequestBody b).loudness = .num (1 / 2)) ∧
    (b.guidance_scale = .undef → (buildVdRequestBody b).guidance_scale = .num 5) := by
  refine ⟨?_, ?_, ?_, ?_, ?_, ?_, ?_, ?_, ?_, ?_, ?_⟩
  · simp only [buildVdRequestBody]; split <;> simp_all
  · simp only [buildVdRequestBody]; split <;> simp_all
  · simp only [buildVdRequestBody]; split <;> simp_all
  · simp only [buildVdRequestBody]; split <;> simp_all
  · simp only [buildVdRequestBody]; split <;> simp_all
  · simp only [buildVdRequestBody]; split <;> simp_all
  · intro h; simp [buildVdRequestBody, h]
  · intro h; simp [buildVdRequestBody, h, Js.jsOr, Js.truthy]
  · intro h; simp [buildVdRequestBody, h, Js.jsOr, Js.truthy]
  · intro h; simp [buildVdRequestBody, h, Js.ifDef]
  · intro h; simp [buildVdRequestBody, h, Js.ifDef]

/-- A valid voice-design body with `stream_previews` explicitly `false` and
the defaultable fields unsupplied. -/
def vdBodyFlagFalse : VoiceDesignBody :=
  { vdBodyOnlyDesc (.str "a pleasant narrator voice, calm and low") with
    stream_previews := .bool false }

/-- Witness for the amended C6: explicit `stream_previews: false` is kept and
the unspecified `model_id` is defaulted. -/
theorem voice_design_request_body_witness :
    (buildVdRequestBody vdBodyFlagFalse).stream_previews = some (.bool false) ∧
    (buildVdRequestBody vdBodyFlagFalse).model_id =
      .str "eleven_multilingual_ttv_v2" := by
  have h := voice_design_request_body vdBodyFlagFalse
  exact ⟨h.2.2.2.2.2.2.1 rfl, h.2.2.2.2.2.2.2.1 rfl⟩

/-- A concrete non-success provider response for the voice-design endpoint. -/
def vdErrResp : FetchResponse :=
  { status := 429, statusText := "Too Many Requests", body := "quota exceeded" }

/-- C7 counterexample: on a provider failure the status is propagated, but
the response body is the wrapper object `{ error, details }` – not the
provider's error body relayed verbatim as the entire body. -/
theorem voice_design_provider_error_counterexample :
    (apiVoiceDesign vdBodyFlagFalse (some "k") (.ok vdErrResp)).2.status = 429 ∧
    (apiVoiceDesign vdBodyFlagFalse (some "k") (.ok vdErrResp)).2.body ≠
      .rawJson "quota exceeded" ∧
    (apiVoiceDesign vdBodyFlagFalse (some "k") (.ok vdErrResp)).2.body =
      .errorDetails "Voice design failed: Too Many Requests" "quota exceeded" := by
  refine ⟨rfl, by decide, rfl⟩

/-- C7 amended: on a non-success provider response to a valid request, the
handler answers with exactly the provider's status code and the JSON object
`{ error: 'Voice design failed: ' + statusText, details: <provider body
verbatim> }` – the provider body appears verbatim in the `details` field,
and no fallback is substituted. -/
theorem voice_design_provider_error (b : VoiceDesignBody) (key : String)
    (r : FetchResponse) (hv : vdValidation b = none) (hk : key ≠ "")
    (hr : r.ok = false) :
    apiVoiceDesign b (some key) (.ok r) =
      (some (buildVdRequestBody b),
       ⟨r.status,
        .errorDetails ("Voice design failed: " ++ r.statusText) r.body⟩) := by
  simp [apiVoiceDesign, hv, optTruthy, hk, hr]

/-- Witness for the amended C7 at the concrete 429 provider response. -/
theorem voice_design_provider_error_witness :
    apiVoiceDesign vdBodyFlagFalse (some "k") (.ok vdErrResp) =
      (some (buildVdRequestBody vdBodyFlagFalse),
       ⟨429,
        .errorDetails ("Voice design failed: " ++ "Too Many Requests")
          "quota exceeded"⟩) :=
  voice_design_provider_error vdBodyFlagFalse "k" vdErrResp rfl (by decide)
    (by decide)

/-- C8: with no uploaded file, the STT handler answers HTTP 400 regardless of
every other field, the credential, and whatever the provider call would have
returned – and it does not contact the provider (no outgoing form body). -/
theorem stt_missing_file (b : SttBody) (key : Option String)
    (outcome : SttOutcome) (hf : b.file = none) :
    apiStt b key outcome = (none, ⟨400, .errorOnly "No audio file provided"⟩) := by
  simp [apiStt, hf]

/-- Witness for C8: no file but every other field supplied. -/
theorem stt_missing_file_witness :
    apiStt ⟨none, .str "scribe_v1", .str "en", .num 2, .bool true, .bool true⟩
        (some "k") (.ok "transcript") =
      (none, ⟨400, .errorOnly "No audio file provided"⟩) :=
  stt_missing_file ⟨none, .str "scribe_v1", .str "en", .num 2, .bool true, .bool true⟩
    (some "k") (.ok "transcript") rfl

/-- C9: in the outgoing multipart body, `diarize` and `tag_audio_events`
appear exactly when they are present (not `undefined`) on the incoming
request – in particular an explicit `false` is appended. -/
theorem stt_boolean_flags (b : SttBody) (f : SttFile) :
    (("diarize" ∈ (sttFormData b f).map Prod.fst) ↔ b.diarize ≠ .undef) ∧
    (("tag_audio_events" ∈ (sttFormData b f).map Prod.fst) ↔
      b.tag_audio_events ≠ .undef) ∧
    (b.diarize = .bool false →
      ("diarize", FormValue.val (.bool false)) ∈ sttFormData b f) := by
  by_cases h1 : b.language_code.truthy <;>
  by_cases h2 : b.num_speakers.truthy <;>
  by_cases h3 : b.diarize = Js.undef <;>
  by_cases h4 : b.tag_audio_events = Js.undef <;>
  simp [sttFormData, h1, h2, h3, h4] <;>
  exact fun h => h.symm

/-- A concrete STT request with `diarize` explicitly `false`. -/
def sttBodyDiarizeFalse : SttBody :=
  { file := some ⟨.str "clip.wav", .str "audio/wav", "bytes"⟩,
    model_id := .undef, language_code := .undef, num_speakers := .undef,
    diarize := .bool false, tag_audio_events := .undef }

/-- Witness for C9: a request with `diarize = false` puts `diarize` into the
outgoing form body. -/
theorem stt_boolean_flags_witness :
    ("diarize", FormValue.val (.bool false)) ∈
      sttFormData sttBodyDiarizeFalse ⟨.str "clip.wav", .str "audio/wav", "bytes"⟩ :=
  (stt_boolean_flags sttBodyDiarizeFalse
    ⟨.str "clip.wav", .str "audio/wav", "bytes"⟩).2.2 rfl
